import Mathlib

/-!
Verification of the TikTok-to-YouTube transfer pipeline (`src/tiktok_uploader.py`).

The embedding below translates the progress store and the transfer pipeline of
the Python source into Lean. External effects (the filesystem holding the
history file, the `yt_dlp` download, the YouTube API call) are represented by
explicit oracles collected in `Env`; Python exceptions become `Except` /
`Option` results. Python strings are modelled as `List Char` where character
counts matter (titles, descriptions) and as `String` elsewhere.
-/

namespace TiktokUploader

/-- The parsed contents of `uploaded_videos.json` as a JSON object: each field
is `some v` when the key is present, `none` when it is absent
(`history.get(key, default)` in the source distinguishes exactly this). -/
structure HistoryJson where
  uploaded_ids : Option (List String)
  current_index : Option Nat
deriving Repr, DecidableEq

/-- The state of the durable history file `uploaded_videos.json`:
absent, present but not valid JSON, or present and parsed. -/
inductive FileState where
  | absent
  | malformed
  | parsed (j : HistoryJson)
deriving Repr, DecidableEq

/-- Exceptions that can propagate out of a pass (`main`):
`parseError` is `json.JSONDecodeError` escaping `json.load` (line 32),
`saveError` is an exception escaping `save_uploaded_history` outside any
`try` (line 234), `keyError` is `history['current_index']` at the summary
(line 282) when the key is absent. -/
inductive PassError where
  | parseError
  | saveError
  | keyError
deriving Repr, DecidableEq

/-- `load_uploaded_history` (lines 28-33): if the file exists it is parsed
with `json.load` (raising on malformed contents); if it does not exist the
literal record `{"uploaded_ids": [], "current_index": 0}` is returned. -/
def load_uploaded_history : FileState → Except PassError HistoryJson
  | FileState.absent => Except.ok { uploaded_ids := some [], current_index := some 0 }
  | FileState.malformed => Except.error PassError.parseError
  | FileState.parsed j => Except.ok j

/-- One entry of `info['entries']` as consumed by `get_all_tiktok_videos`
(lines 87-92): each field is `some v` when the key is present. -/
structure Entry where
  id : Option String
  title : Option (List Char)
  url : Option String
  webpage_url : Option String
deriving Repr, DecidableEq

/-- One element of the `videos` list built by `get_all_tiktok_videos`
(lines 88-92). The dictionaries built there have exactly the keys
`id`, `title`, `url`; `description` is carried as an `Option` so that
`video_to_upload.get('description', ...)` (line 251) can be modelled. -/
structure Video where
  id : String
  title : List Char
  url : String
  description : Option (List Char)
deriving Repr, DecidableEq

/-- Python `str(x)` of an optional string as it appears interpolated in an
f-string: `None` renders as `"None"`. -/
def pyStr : Option String → String
  | some s => s
  | none => "None"

/-- Python `a or b` on an optional string `a`: `a` is kept when it is present
and truthy (non-empty), otherwise `b` is used. -/
def pyOrStr (a : Option String) (b : String) : String :=
  match a with
  | some s => if s = "" then b else s
  | none => b

/-- The dictionary built for one entry (lines 88-92):
`id` defaults to `'unknown'`, `title` to `'TikTok Video'`, and `url` is the
truthiness chain `entry.get('url') or entry.get('webpage_url') or f"https://www.tiktok.com/@{user}/video/{entry.get('id')}"`.
No `description` key is ever written. -/
def mkVideo (username : String) (e : Entry) : Video :=
  { id := e.id.getD "unknown"
    title := e.title.getD ("TikTok Video".toList)
    url := pyOrStr e.url (pyOrStr e.webpage_url
      ("https://www.tiktok.com/@" ++ username ++ "/video/" ++ pyStr e.id))
    description := none }

/-- Outcome of `ydl.extract_info` inside `get_all_tiktok_videos`:
`failure` is any exception (caught at line 100, returning `[]`);
`success none` is an info dict without an `'entries'` key;
`success (some es)` carries the entries list. -/
inductive ExtractResult where
  | failure
  | success (entries : Option (List Entry))
deriving Repr, DecidableEq

/-- `get_all_tiktok_videos` (lines 64-103): map the entries to video dicts,
then `videos.reverse()` so the oldest item comes first; any exception and a
missing `'entries'` key both yield the empty list. -/
def get_all_tiktok_videos (username : String) : ExtractResult → List Video
  | ExtractResult.failure => []
  | ExtractResult.success none => []
  | ExtractResult.success (some es) => (es.map (mkVideo username)).reverse

/-- The `snippet` part of the YouTube upload body (lines 147-152). -/
structure Snippet where
  title : List Char
  description : List Char
  tags : List String
  categoryId : String
deriving Repr, DecidableEq

/-- The `status` part of the YouTube upload body (lines 153-156). -/
structure UploadStatus where
  privacyStatus : String
  selfDeclaredMadeForKids : Bool
deriving Repr, DecidableEq

/-- The full request body passed to `youtube.videos().insert` (lines 146-157). -/
structure Body where
  snippet : Snippet
  status : UploadStatus
deriving Repr, DecidableEq

/-- The fixed promotional suffix appended to every description (line 149). -/
def ytDescSuffix : List Char := "\n\n📱 Share and subscribe\n#Shorts".toList

/-- The fallback description used when the item has no `description` key
(line 251). -/
def fallbackDescription : List Char := "Check out my other content!".toList

/-- Line 144: `title = title[:97] + "..." if len(title) > 100 else title`. -/
def truncatedTitle (title : List Char) : List Char :=
  if 100 < title.length then title.take 97 ++ "...".toList else title

/-- `upload_to_youtube` (lines 139-174). The network call
`youtube.videos().insert(...)` / `next_chunk` is the oracle `api`, which
returns `some remoteId` on success and `none` when it raises. The function
returns the body it built (so the metadata that reached the destination is
observable) together with the api outcome. -/
def upload_to_youtube (api : String → Body → Option String) (username : String)
    (video_file : String) (title description : List Char) : Body × Option String :=
  let title := truncatedTitle title
  let body : Body :=
    { snippet :=
        { title := title
          description := description ++ ytDescSuffix
          tags := ["TikTok", "shorts", username]
          categoryId := "22" }
      status := { privacyStatus := "public", selfDeclaredMadeForKids := false } }
  (body, api video_file body)

/-- External-effect oracles for one pass: `username` is `TIKTOK_USERNAME`;
`download` is `download_tiktok_video` (lines 105-137, returning the local
path or `None`); `api` is the YouTube insert call; `saveOk` tells whether
writing a given record to disk in `save_uploaded_history` (lines 35-38)
succeeds (`false` models the write raising, e.g. disk full). -/
structure Env where
  username : String
  download : Video → Option String
  api : String → Body → Option String
  saveOk : HistoryJson → Bool

/-- Observable invocations of the external collaborators made by the
per-item loop: a download attempt for an item, and a publish attempt
(an `upload_to_youtube` call) with the file and body that were sent. -/
inductive Event where
  | download (v : Video)
  | publish (v : Video) (file : String) (body : Body)
deriving Repr, DecidableEq

/-- The item an event belongs to. -/
def Event.video : Event → Video
  | Event.download v => v
  | Event.publish v _ _ => v

/-- The mutable state of `main`'s loop (lines 218-274): the in-memory
`uploaded_ids` list and `history` dict, the durable file as last written
(`persisted`), the two counters, and the trace of collaborator calls.
In the source `uploaded_ids` and `history['uploaded_ids']` are kept in sync
(they alias, and the success branch reassigns both), so one list suffices. -/
structure LoopState where
  uploaded_ids : List String
  history : HistoryJson
  persisted : FileState
  successful_uploads : Nat
  failed_uploads : Nat
  events : List Event
deriving Repr, DecidableEq

/-- The record written in the skip branch (line 233):
`history['current_index'] = actual_index + 1` on the current dict. -/
def skipRecord (s : LoopState) (actual_index : Nat) : HistoryJson :=
  { s.history with current_index := some (actual_index + 1) }

/-- The record written after a successful upload (lines 255-257):
both keys are (re)assigned before saving. -/
def successRecord (s : LoopState) (v : Video) (actual_index : Nat) : HistoryJson :=
  { uploaded_ids := some (s.uploaded_ids ++ [v.id])
    current_index := some (actual_index + 1) }

/-- The call `upload_to_youtube(youtube, video_file, video_to_upload['title'],
video_to_upload.get('description', 'Check out my other content!'))`
(lines 247-252). -/
def uploadAttempt (env : Env) (video_file : String) (v : Video) : Body × Option String :=
  upload_to_youtube env.api env.username video_file v.title
    (v.description.getD fallbackDescription)

/-- One iteration of the loop body (lines 222-274) for the item
`v` at enumeration index `actual_index`.
Branches, in source order:
already uploaded (lines 231-235: set cursor, save — the save is outside any
`try`, so a failure propagates); download failure (lines 240-243); then the
`try` block (lines 246-274) around upload, history mutation, save and the
rate-limit sleep — an exception anywhere in it is caught, counted as a
failed upload, and the loop continues. `time.sleep` (lines 267-269) has no
observable effect on the modelled state; `upload_all` and `isLast` are its
guards and are kept for fidelity. -/
def stepItem (env : Env) (upload_all : Bool) (v : Video) (actual_index : Nat)
    (isLast : Bool) (s : LoopState) : Except PassError LoopState :=
  if v.id ∈ s.uploaded_ids then
    if env.saveOk (skipRecord s actual_index) then
      Except.ok { s with history := skipRecord s actual_index
                         persisted := FileState.parsed (skipRecord s actual_index) }
    else
      Except.error PassError.saveError
  else
    match env.download v with
    | none =>
      Except.ok { s with
        failed_uploads := s.failed_uploads + 1
        events := s.events ++ [Event.download v] }
    | some video_file =>
      match (uploadAttempt env video_file v).2 with
      | none =>
        Except.ok { s with
          failed_uploads := s.failed_uploads + 1
          events := s.events ++ [Event.download v,
            Event.publish v video_file (uploadAttempt env video_file v).1] }
      | some _ytid =>
        if env.saveOk (successRecord s v actual_index) then
          Except.ok { s with
            uploaded_ids := s.uploaded_ids ++ [v.id]
            history := successRecord s v actual_index
            persisted := FileState.parsed (successRecord s v actual_index)
            successful_uploads := s.successful_uploads + 1
            events := s.events ++ [Event.download v,
              Event.publish v video_file (uploadAttempt env video_file v).1] }
        else
          Except.ok { s with
            uploaded_ids := s.uploaded_ids ++ [v.id]
            history := successRecord s v actual_index
            failed_uploads := s.failed_uploads + 1
            events := s.events ++ [Event.download v,
              Event.publish v video_file (uploadAttempt env video_file v).1] }

/-- The `for idx, video_to_upload in enumerate(videos_to_process)` loop
(line 222): `actual_index = current_index + idx` where `current_index` is
the value loaded at the start of the pass (it is never reassigned), and
`idx < len(videos_to_process) - 1` is `rest` being nonempty. -/
def runWindow (env : Env) (upload_all : Bool) (current_index0 : Nat) :
    List Video → Nat → LoopState → Except PassError LoopState
  | [], _, s => Except.ok s
  | v :: rest, idx, s =>
    match stepItem env upload_all v (current_index0 + idx) rest.isEmpty s with
    | Except.error e => Except.error e
    | Except.ok s1 => runWindow env upload_all current_index0 rest (idx + 1) s1

/-- The figures printed by the final summary (lines 276-290): successful and
failed counters, `history['current_index']` over the total, and the
remaining count, which is printed only when `current_index < len(all_videos)`. -/
structure Summary where
  successful : Nat
  failed : Nat
  progressIndex : Nat
  total : Nat
  remaining : Option Nat
deriving Repr, DecidableEq

/-- How a pass ends when no exception propagates: the early return at
line 198 (`No videos found`), the early return at line 203 (all uploaded),
or the summary block with the final loop state. -/
inductive PassOutcome where
  | noVideos
  | allDone (total : Nat)
  | finished (summary : Summary) (final : LoopState)
deriving Repr, DecidableEq

/-- Line 191: `current_index = history.get('current_index', 0)`. -/
def initialCursor (h : HistoryJson) : Nat := h.current_index.getD 0

/-- Line 192: `uploaded_ids = history.get('uploaded_ids', [])`. -/
def initialIds (h : HistoryJson) : List String := h.uploaded_ids.getD []

/-- The cursor recorded in the durable file (0 when the file is absent or
malformed, matching what a fresh load would start from). -/
def persistedCursor : FileState → Nat
  | FileState.parsed h => initialCursor h
  | _ => 0

/-- `main` (lines 176-290). `file0` is the durable history file at entry,
`ex` the outcome of the enumeration. Steps: load the history (a parse
error propagates), read the two fields with `.get` defaults, enumerate,
return early on an empty list or on `current_index >= len(all_videos)`,
build the window (`all_videos[current_index:]` in bulk mode, the singleton
`[all_videos[current_index]]` — equal to `take 1` of the remaining slice
under the guard — in single mode), run the loop, and build the summary,
whose `history['current_index']` lookup raises `KeyError` when the key is
still absent. -/
def main (env : Env) (upload_all : Bool) (file0 : FileState) (ex : ExtractResult) :
    Except PassError PassOutcome :=
  match load_uploaded_history file0 with
  | Except.error e => Except.error e
  | Except.ok history =>
    let current_index := initialCursor history
    let uploaded_ids := initialIds history
    let all_videos := get_all_tiktok_videos env.username ex
    if all_videos.isEmpty then
      Except.ok PassOutcome.noVideos
    else if all_videos.length ≤ current_index then
      Except.ok (PassOutcome.allDone all_videos.length)
    else
      let videos_to_process :=
        if upload_all then all_videos.drop current_index
        else (all_videos.drop current_index).take 1
      let s0 : LoopState :=
        { uploaded_ids := uploaded_ids
          history := history
          persisted := file0
          successful_uploads := 0
          failed_uploads := 0
          events := [] }
      match runWindow env upload_all current_index videos_to_process 0 s0 with
      | Except.error e => Except.error e
      | Except.ok s =>
        match s.history.current_index with
        | none => Except.error PassError.keyError
        | some ci =>
          Except.ok (PassOutcome.finished
            { successful := s.successful_uploads
              failed := s.failed_uploads
              progressIndex := ci
              total := all_videos.length
              remaining :=
                if all_videos.length ≤ ci then none
                else some (all_videos.length - ci) } s)

/-- The final loop state of a finished pass, when there is one. -/
def finishedState : Except PassError PassOutcome → Option LoopState
  | Except.ok (PassOutcome.finished _ s) => some s
  | _ => none

/-- The summary of a finished pass, when there is one. -/
def finishedSummary : Except PassError PassOutcome → Option Summary
  | Except.ok (PassOutcome.finished sum _) => some sum
  | _ => none

/-- Number of publish attempts recorded for a given item id. -/
def publishCount (theId : String) (evs : List Event) : Nat :=
  (evs.filter (fun e => match e with
    | Event.publish v _ _ => v.id == theId
    | Event.download _ => false)).length

/-! ### Shared helper lemmas about one loop iteration -/

/-- Exhaustive description of a non-aborting iteration: either the skip
branch ran (and the state is exactly the skip update), or the item was not
yet uploaded, in which case the id list stays or grows by `v.id` and the
new trace entries all belong to `v`. -/
theorem stepItem_cases (env : Env) (ua : Bool) (v : Video) (ai : Nat) (last : Bool)
    (s s' : LoopState) (h : stepItem env ua v ai last s = Except.ok s') :
    (v.id ∈ s.uploaded_ids ∧ env.saveOk (skipRecord s ai) = true ∧
      s' = { s with history := skipRecord s ai,
                    persisted := FileState.parsed (skipRecord s ai) }) ∨
    (v.id ∉ s.uploaded_ids ∧
      (s'.uploaded_ids = s.uploaded_ids ∨ s'.uploaded_ids = s.uploaded_ids ++ [v.id]) ∧
      (s'.history = s.history ∨ s'.history.current_index = some (ai + 1)) ∧
      ∃ new, s'.events = s.events ++ new ∧ ∀ e ∈ new, Event.video e = v) := by
  unfold stepItem at h
  split at h
  · split at h
    · left
      refine ⟨by assumption, by assumption, ?_⟩
      exact (Except.ok.injEq _ _).mp h.symm
    · exact absurd h (by simp)
  · right
    refine ⟨by assumption, ?_⟩
    split at h
    · cases h
      exact ⟨Or.inl rfl, Or.inl rfl, [Event.download v], rfl,
        by intro e he; simp at he; subst he; rfl⟩
    · split at h
      · cases h
        refine ⟨Or.inl rfl, Or.inl rfl, [Event.download v, Event.publish v _ _], rfl, ?_⟩
        intro e he
        simp at he
        rcases he with he | he <;> subst he <;> rfl
      · split at h
        · cases h
          refine ⟨Or.inr rfl, Or.inr rfl, [Event.download v, Event.publish v _ _], rfl, ?_⟩
          intro e he
          simp at he
          rcases he with he | he <;> subst he <;> rfl
        · cases h
          refine ⟨Or.inr rfl, Or.inr rfl, [Event.download v, Event.publish v _ _], rfl, ?_⟩
          intro e he
          simp at he
          rcases he with he | he <;> subst he <;> rfl

/-- The second component of an upload attempt is the api oracle applied to
the body the attempt built. -/
theorem uploadAttempt_snd (env : Env) (f : String) (v : Video) :
    (uploadAttempt env f v).2 = env.api f (uploadAttempt env f v).1 := rfl

/-- A non-aborting iteration either leaves the durable file untouched or
writes a record whose cursor is exactly `actual_index + 1`; such a write
happens only when the item was found already uploaded or freshly published
(its id then appended to the id list). -/
theorem stepItem_persisted (env : Env) (ua : Bool) (v : Video) (ai : Nat) (last : Bool)
    (s s' : LoopState) (h : stepItem env ua v ai last s = Except.ok s') :
    s'.persisted = s.persisted ∨
    ((∃ j, s'.persisted = FileState.parsed j ∧ j.current_index = some (ai + 1)) ∧
     (v.id ∈ s.uploaded_ids ∨ s'.uploaded_ids = s.uploaded_ids ++ [v.id])) := by
  unfold stepItem at h
  split at h
  · split at h
    · cases h
      exact Or.inr ⟨⟨skipRecord s ai, rfl, rfl⟩, Or.inl (by assumption)⟩
    · exact absurd h (by simp)
  · split at h
    · cases h
      exact Or.inl rfl
    · split at h
      · cases h
        exact Or.inl rfl
      · split at h
        · cases h
          exact Or.inr ⟨⟨successRecord s v ai, rfl, rfl⟩, Or.inr rfl⟩
        · cases h
          exact Or.inl rfl

/-- Along a non-aborting window run, the cursor recorded in the durable file
never decreases, and never exceeds the index range covered so far. -/
theorem runWindow_persistedCursor_mono (env : Env) (ua : Bool) (ci0 : Nat) :
    ∀ (vs : List Video) (idx : Nat) (s s' : LoopState),
      runWindow env ua ci0 vs idx s = Except.ok s' →
      persistedCursor s.persisted ≤ ci0 + idx →
      persistedCursor s.persisted ≤ persistedCursor s'.persisted ∧
      persistedCursor s'.persisted ≤ ci0 + idx + vs.length := by
  intro vs
  induction vs with
  | nil =>
    intro idx s s' h hb
    simp only [runWindow] at h
    cases h
    exact ⟨Nat.le_refl _, by simpa using hb⟩
  | cons v rest ih =>
    intro idx s s' h hb
    simp only [runWindow] at h
    split at h
    · exact absurd h (by simp)
    · rename_i s1 heq
      rcases stepItem_persisted env ua v (ci0 + idx) rest.isEmpty s s1 heq with hsame | ⟨⟨j, hj, hcur⟩, _⟩
      · have hb1 : persistedCursor s1.persisted ≤ ci0 + (idx + 1) := by
          rw [hsame]; omega
        have := ih (idx + 1) s1 s' h hb1
        rw [hsame] at this
        refine ⟨this.1, ?_⟩
        have := this.2
        simp only [List.length_cons]
        omega
      · have hval : persistedCursor s1.persisted = ci0 + idx + 1 := by
          rw [hj]
          simp [persistedCursor, initialCursor, hcur]
        have hb1 : persistedCursor s1.persisted ≤ ci0 + (idx + 1) := by omega
        obtain ⟨h1, h2⟩ := ih (idx + 1) s1 s' h hb1
        refine ⟨by omega, ?_⟩
        simp only [List.length_cons]
        omega

/-- When every download, every api call and every save succeeds, one
iteration never aborts and always moves the in-memory cursor to
`actual_index + 1`. -/
theorem stepItem_success (env : Env) (ua : Bool) (v : Video) (ai : Nat) (last : Bool)
    (s : LoopState)
    (hdl : (env.download v).isSome)
    (hapi : ∀ f b, (env.api f b).isSome)
    (hsave : ∀ j, env.saveOk j = true) :
    ∃ s1, stepItem env ua v ai last s = Except.ok s1 ∧
      s1.history.current_index = some (ai + 1) := by
  unfold stepItem
  by_cases hmem : v.id ∈ s.uploaded_ids
  · rw [if_pos hmem, hsave (skipRecord s ai), if_pos rfl]
    exact ⟨_, rfl, rfl⟩
  · rw [if_neg hmem]
    obtain ⟨f, hf⟩ := Option.isSome_iff_exists.mp hdl
    obtain ⟨y, hy⟩ := Option.isSome_iff_exists.mp
      (hapi f (uploadAttempt env f v).1)
    rw [hf]
    simp only [uploadAttempt_snd, hy, hsave (successRecord s v ai), if_pos rfl]
    exact ⟨_, rfl, rfl⟩

/-- When every download, api call and save succeeds, a nonempty window run
never aborts and ends with the in-memory cursor one past the last index of
the window. -/
theorem runWindow_all_success (env : Env) (ua : Bool) (ci0 : Nat)
    (hdl : ∀ v, (env.download v).isSome)
    (hapi : ∀ f b, (env.api f b).isSome)
    (hsave : ∀ j, env.saveOk j = true) :
    ∀ (vs : List Video) (idx : Nat) (s : LoopState), vs ≠ [] →
      ∃ s', runWindow env ua ci0 vs idx s = Except.ok s' ∧
        s'.history.current_index = some (ci0 + idx + vs.length) := by
  intro vs
  induction vs with
  | nil => intro idx s hne; exact absurd rfl hne
  | cons v rest ih =>
    intro idx s _
    obtain ⟨s1, hs1, hcur⟩ :=
      stepItem_success env ua v (ci0 + idx) rest.isEmpty s (hdl v) hapi hsave
    by_cases hrest : rest = []
    · subst hrest
      refine ⟨s1, ?_, ?_⟩
      · simp only [runWindow, hs1]
      · simpa using hcur
    · obtain ⟨s', hs', hcur'⟩ := ih (idx + 1) s1 hrest
      refine ⟨s', ?_, ?_⟩
      · simp only [runWindow, hs1]
        exact hs'
      · rw [hcur']
        simp only [List.length_cons]
        exact congrArg some (by omega)

/-- A successful load yields a record whose defaulted cursor equals the
cursor recorded in the file (0 for an absent file). -/
theorem load_cursor_eq (file0 : FileState) (history : HistoryJson)
    (h : load_uploaded_history file0 = Except.ok history) :
    initialCursor history = persistedCursor file0 := by
  cases file0 with
  | absent =>
    simp only [load_uploaded_history, Except.ok.injEq] at h
    rw [← h]
    rfl
  | malformed => exact absurd h (by simp [load_uploaded_history])
  | parsed j =>
    simp only [load_uploaded_history, Except.ok.injEq] at h
    rw [← h]
    rfl

/-- Inversion of a pass that reached the summary block: the load succeeded,
the guards passed (`cursor < length`), the window run ended in the reported
state, and every summary figure is determined by that state. -/
theorem main_finished_inv (env : Env) (ua : Bool) (file0 : FileState) (ex : ExtractResult)
    (sum : Summary) (s : LoopState)
    (h : main env ua file0 ex = Except.ok (PassOutcome.finished sum s)) :
    ∃ history, load_uploaded_history file0 = Except.ok history ∧
      runWindow env ua (initialCursor history)
        (if ua then (get_all_tiktok_videos env.username ex).drop (initialCursor history)
         else ((get_all_tiktok_videos env.username ex).drop (initialCursor history)).take 1) 0
        { uploaded_ids := initialIds history
          history := history
          persisted := file0
          successful_uploads := 0
          failed_uploads := 0
          events := [] } = Except.ok s ∧
      s.history.current_index = some sum.progressIndex ∧
      sum.successful = s.successful_uploads ∧
      sum.failed = s.failed_uploads ∧
      sum.total = (get_all_tiktok_videos env.username ex).length ∧
      sum.remaining = (if sum.total ≤ sum.progressIndex then none
                       else some (sum.total - sum.progressIndex)) ∧
      initialCursor history < (get_all_tiktok_videos env.username ex).length := by
  simp only [main] at h
  split at h
  · exact absurd h (by simp)
  · rename_i history heq
    split at h
    · exact absurd h (by simp)
    · split at h
      · exact absurd h (by simp)
      · split at h
        · exact absurd h (by simp)
        · rename_i hguard s1 hrw
          split at h
          · exact absurd h (by simp)
          · rename_i ci hci
            simp only [Except.ok.injEq, PassOutcome.finished.injEq] at h
            obtain ⟨hsum, hstate⟩ := h
            subst hstate
            refine ⟨history, heq, hrw, ?_, ?_, ?_, ?_, ?_, by omega⟩
            · rw [← hsum]; exact hci
            · rw [← hsum]
            · rw [← hsum]
            · rw [← hsum]
            · rw [← hsum]

/-- `publishCount` distributes over trace concatenation. -/
theorem publishCount_append (theId : String) (a b : List Event) :
    publishCount theId (a ++ b) = publishCount theId a + publishCount theId b := by
  simp [publishCount, List.filter_append]

/-- Events that all belong to an item with a different id contribute no
publish attempts for `theId`. -/
theorem publishCount_other (theId : String) (v : Video) (new : List Event)
    (hall : ∀ e ∈ new, Event.video e = v) (hne : v.id ≠ theId) :
    publishCount theId new = 0 := by
  induction new with
  | nil => rfl
  | cons e rest ih =>
    have he := hall e (List.mem_cons_self e rest)
    have hrest := ih (fun x hx => hall x (List.mem_cons_of_mem e hx))
    cases e with
    | download w =>
      simp only [publishCount, List.filter_cons] at hrest ⊢
      simpa using hrest
    | publish w f b =>
      have hw : w = v := he
      subst hw
      simp only [publishCount, List.filter_cons] at hrest ⊢
      rw [if_neg (by simpa using hne)]
      simpa using hrest

/-- Once an id is in the uploaded list when a window run starts, it is still
there at the end and the run adds no publish attempt for it. -/
theorem runWindow_no_republish (env : Env) (ua : Bool) (ci0 : Nat) :
    ∀ (vs : List Video) (idx : Nat) (s s' : LoopState) (theId : String),
      runWindow env ua ci0 vs idx s = Except.ok s' →
      theId ∈ s.uploaded_ids →
      theId ∈ s'.uploaded_ids ∧
      publishCount theId s'.events = publishCount theId s.events := by
  intro vs
  induction vs with
  | nil =>
    intro idx s s' theId h hmem
    simp only [runWindow] at h
    cases h
    exact ⟨hmem, rfl⟩
  | cons v rest ih =>
    intro idx s s' theId h hmem
    simp only [runWindow] at h
    split at h
    · exact absurd h (by simp)
    · rename_i s1 heq
      rcases stepItem_cases env ua v (ci0 + idx) rest.isEmpty s s1 heq with
        ⟨hvmem, _, hs1⟩ | ⟨hvnot, hids, _, new, hev, hall⟩
      · have hmem1 : theId ∈ s1.uploaded_ids := by rw [hs1]; exact hmem
        obtain ⟨a, b⟩ := ih (idx + 1) s1 s' theId h hmem1
        refine ⟨a, ?_⟩
        rw [b, hs1]
      · have hne : v.id ≠ theId := fun hvt => hvnot (hvt ▸ hmem)
        have hmem1 : theId ∈ s1.uploaded_ids := by
          rcases hids with hids | hids <;> rw [hids]
          · exact hmem
          · exact List.mem_append_left _ hmem
        obtain ⟨hmem', hcount'⟩ := ih (idx + 1) s1 s' theId h hmem1
        refine ⟨hmem', ?_⟩
        rw [hcount', hev, publishCount_append,
          publishCount_other theId v new hall hne, Nat.add_zero]

/-! ### Concrete fixtures for counterexamples and witnesses -/

/-- A concrete enumeration entry with id `A`. -/
def entryA : Entry :=
  { id := some "A", title := some ("tA".toList), url := some "uA", webpage_url := none }

/-- A concrete enumeration entry with id `B`. -/
def entryB : Entry :=
  { id := some "B", title := some ("tB".toList), url := some "uB", webpage_url := none }

/-- An extraction yielding the processing order `[A, B]` (the code reverses
the entries, so they are listed newest-first here). -/
def extractAB : ExtractResult := ExtractResult.success (some [entryB, entryA])

/-- An extraction yielding the processing order `[A]`. -/
def extractA : ExtractResult := ExtractResult.success (some [entryA])

/-- Oracles where the download of item `A` fails and everything else
succeeds. -/
def envC1 : Env :=
  { username := "user"
    download := fun v => if v.id = "A" then none else some ("file_" ++ v.id)
    api := fun _ _ => some "yt1"
    saveOk := fun _ => true }

/-- A bulk pass over `[A, B]` from a fresh history where `A`'s download
fails. -/
def resC1 : Except PassError PassOutcome := main envC1 true FileState.absent extractAB

/-- Oracles where downloads and api calls succeed but every write of the
history file fails. -/
def envC2 : Env :=
  { username := "user"
    download := fun _ => some "file"
    api := fun _ _ => some "yt1"
    saveOk := fun _ => false }

/-- A single-mode pass over `[A]` from a fresh history where the save after
the successful publish fails. -/
def resC2 : Except PassError PassOutcome := main envC2 false FileState.absent extractA

/-- Oracles where every external call succeeds. -/
def envOk : Env :=
  { username := "user"
    download := fun v => some ("file_" ++ v.id)
    api := fun _ _ => some "yt1"
    saveOk := fun _ => true }

/-- Oracles where every download fails (and saves succeed). -/
def envNoDl : Env :=
  { username := "user"
    download := fun _ => none
    api := fun _ _ => some "yt1"
    saveOk := fun _ => true }

/-- The loop state at the start of a pass from a fresh (absent) history. -/
def sInit : LoopState :=
  { uploaded_ids := []
    history := { uploaded_ids := some [], current_index := some 0 }
    persisted := FileState.absent
    successful_uploads := 0
    failed_uploads := 0
    events := [] }

/-- `sInit` after one iteration whose download failed. -/
def sInitFailed : LoopState :=
  { sInit with failed_uploads := 1, events := [Event.download (mkVideo "user" entryA)] }

/-- A loop state in which item id `A` is already recorded as uploaded. -/
def sHasA : LoopState :=
  { uploaded_ids := ["A"]
    history := { uploaded_ids := some ["A"], current_index := some 0 }
    persisted := FileState.parsed { uploaded_ids := some ["A"], current_index := some 0 }
    successful_uploads := 0
    failed_uploads := 0
    events := [] }

/-- `sHasA` after the skip branch at index 0: cursor advanced to 1 and the
record persisted, nothing else changed. -/
def sHasASkipped : LoopState :=
  { sHasA with history := skipRecord sHasA 0
               persisted := FileState.parsed (skipRecord sHasA 0) }

/-- Oracles where downloads succeed but every api call fails. -/
def envPubFail : Env :=
  { username := "user"
    download := fun v => some ("file_" ++ v.id)
    api := fun _ _ => none
    saveOk := fun _ => true }

/-- A parsed history file with cursor 0 and no completed ids. -/
def fileZero : FileState :=
  FileState.parsed { uploaded_ids := some [], current_index := some 0 }

/-- The summary of a single-mode pass over `[A, B]` from `fileZero` whose
only step fails to download. -/
def sumC7 : Summary :=
  { successful := 0, failed := 1, progressIndex := 0, total := 2, remaining := some 2 }

/-- The final state of that pass. -/
def sC7 : LoopState :=
  { uploaded_ids := []
    history := { uploaded_ids := some [], current_index := some 0 }
    persisted := fileZero
    successful_uploads := 0
    failed_uploads := 1
    events := [Event.download (mkVideo "user" entryA)] }

/-! ### Claim C3 -/

/-- C3 counterexample: when the history file exists but is unparseable,
`load_uploaded_history` does not return the zero-value record — the
`json.load` error propagates, contradicting the claim that load never
fails fatally on a malformed file. -/
theorem C3_counterexample :
    load_uploaded_history FileState.malformed = Except.error PassError.parseError := rfl

/-- C3 amended: `load` returns the zero-value record
(`cursor = 0`, empty id list) when the durable file is absent; when the
file exists but is unparseable the parse error propagates and aborts the
whole pass. -/
theorem C3_amended_load_behaviour :
    (load_uploaded_history FileState.absent =
      Except.ok { uploaded_ids := some [], current_index := some 0 }) ∧
    ∀ (env : Env) (ua : Bool) (ex : ExtractResult),
      main env ua FileState.malformed ex = Except.error PassError.parseError :=
  ⟨rfl, fun _ _ _ => rfl⟩

/-! ### Claim C8 -/

/-- C8: a title longer than 100 characters is replaced by its first 97
characters followed by the 3-character ellipsis marker, totalling exactly
100 characters; a title of at most 100 characters is passed through
unchanged; and the title placed in the upload body is exactly this
truncation. -/
theorem C8_title_truncation (t : List Char) :
    ((100 < t.length →
        truncatedTitle t = t.take 97 ++ "...".toList ∧ (truncatedTitle t).length = 100) ∧
     (t.length ≤ 100 → truncatedTitle t = t)) ∧
    ∀ (api : String → Body → Option String) (u f : String) (d : List Char),
      (upload_to_youtube api u f t d).1.snippet.title = truncatedTitle t := by
  refine ⟨⟨?_, ?_⟩, fun api u f d => rfl⟩
  · intro hlen
    rw [truncatedTitle, if_pos hlen]
    refine ⟨rfl, ?_⟩
    rw [List.length_append, List.length_take]
    have h3 : ("...".toList).length = 3 := rfl
    omega
  · intro hlen
    rw [truncatedTitle, if_neg (by omega)]

/-- C8 witness: a 120-character title is truncated to exactly 100
characters. -/
theorem C8_witness :
    100 < (List.replicate 120 'a').length ∧
    (truncatedTitle (List.replicate 120 'a')).length = 100 :=
  ⟨by decide, ((C8_title_truncation (List.replicate 120 'a')).1.1 (by decide)).2⟩

/-! ### Claim C9 -/

/-- C9: a history file that exists and parses but lacks `current_index`
or `uploaded_ids` loads without error, and the pass starts with the
missing field replaced by its zero value (`current_index` defaults to 0,
`uploaded_ids` to the empty list), exactly what `history.get(..., default)`
does at the start of `main`. -/
theorem C9_missing_fields_default :
    ∀ (u : Option (List String)) (c : Option Nat),
      load_uploaded_history (FileState.parsed ⟨u, c⟩) = Except.ok ⟨u, c⟩ ∧
      initialCursor ⟨u, none⟩ = 0 ∧ initialIds ⟨none, c⟩ = [] :=
  fun _ _ => ⟨rfl, rfl, rfl⟩

/-! ### Claim C10 -/

/-- C10: enumeration builds descriptors with no `description` field, so for
every enumerated item the description handed to the upload body is the
fallback string `Check out my other content!` followed by the fixed
promotional suffix. -/
theorem C10_description_fallback :
    (∀ (u : String) (e : Entry), (mkVideo u e).description = none) ∧
    (∀ (u : String) (ex : ExtractResult) (v : Video),
        v ∈ get_all_tiktok_videos u ex → v.description = none) ∧
    (∀ (env : Env) (f : String) (v : Video), v.description = none →
        (uploadAttempt env f v).1.snippet.description =
          fallbackDescription ++ ytDescSuffix) := by
  refine ⟨fun _ _ => rfl, ?_, ?_⟩
  · intro u ex v hv
    cases ex with
    | failure => simp [get_all_tiktok_videos] at hv
    | success entries =>
      cases entries with
      | none => simp [get_all_tiktok_videos] at hv
      | some es =>
        simp only [get_all_tiktok_videos, List.mem_reverse, List.mem_map] at hv
        obtain ⟨e, _, he⟩ := hv
        rw [← he]
        rfl
  · intro env f v hd
    simp [uploadAttempt, upload_to_youtube, hd]

/-- C10 witness: the item built from a concrete entry has no description,
and its upload body carries the fallback description plus the suffix. -/
theorem C10_witness :
    ((mkVideo "user" entryA).description = none) ∧
    (uploadAttempt envOk "f" (mkVideo "user" entryA)).1.snippet.description =
      fallbackDescription ++ ytDescSuffix :=
  ⟨C10_description_fallback.2.1 "user" (ExtractResult.success (some [entryA]))
      (mkVideo "user" entryA) (by decide),
   C10_description_fallback.2.2 envOk "f" (mkVideo "user" entryA) rfl⟩

/-! ### Counterexamples for C1, C2, C6 -/

/-- C1 counterexample: bulk pass over `[A, B]` from a fresh history where
`A`'s download fails and `B` publishes. Item at enumeration-index 0 failed
to materialize (it is counted failed and `A` is not in the id list), yet
the persisted cursor ends at 2 — advanced past the failed index 0,
contradicting "the cursor is never advanced past an index whose item
failed to materialize or publish". -/
theorem C1_counterexample :
    (finishedState resC1).map (fun s => persistedCursor s.persisted) = some 2 ∧
    (finishedState resC1).map LoopState.uploaded_ids = some ["B"] ∧
    (finishedState resC1).map LoopState.failed_uploads = some 1 := by decide

/-- C2 counterexample: single-mode pass over `[A]` from a fresh history in
which the publish succeeds and the following save of the history file
fails. The pass does not stop with a propagated error: it finishes with a
summary, the save failure is counted as one failed upload, and the durable
file is left untouched — contradicting "the save failure is never caught,
counted, or silently continued past, in any branch". -/
theorem C2_counterexample :
    (finishedSummary resC2).isSome = true ∧
    (finishedSummary resC2).map Summary.failed = some 1 ∧
    (finishedState resC2).map LoopState.persisted = some FileState.absent := by decide

/-- C6 counterexample: a pass whose enumeration yields no videos returns at
the `No videos found` early exit and never reaches the summary block, so
not every pass ends by reporting the summary counts; the summary also has
no skipped-items count anywhere in the code. -/
theorem C6_counterexample :
    main envOk false FileState.absent ExtractResult.failure =
      Except.ok PassOutcome.noVideos := rfl

/-! ### Claim C1 (amended) -/

/-- C1 amended: the persisted cursor is written as `i+1` only when the item
at enumeration-index `i` was found already in the uploaded ids or was
freshly published (its id appended), and the persisted cursor is
non-decreasing over a pass (hence, by chaining passes through the persisted
file, across passes). The original claim's further clause — that the cursor
is never advanced past a failed index — is false (see the counterexample):
in bulk mode a later success persists a cursor beyond an earlier failed
index. -/
theorem C1_cursor_monotone_guarded :
    (∀ (env : Env) (ua : Bool) (v : Video) (ai : Nat) (last : Bool) (s s' : LoopState),
        stepItem env ua v ai last s = Except.ok s' →
        s'.persisted = s.persisted ∨
        ((∃ j, s'.persisted = FileState.parsed j ∧ j.current_index = some (ai + 1)) ∧
         (v.id ∈ s.uploaded_ids ∨ s'.uploaded_ids = s.uploaded_ids ++ [v.id]))) ∧
    (∀ (env : Env) (ua : Bool) (file0 : FileState) (ex : ExtractResult)
        (sum : Summary) (s : LoopState),
        main env ua file0 ex = Except.ok (PassOutcome.finished sum s) →
        persistedCursor file0 ≤ persistedCursor s.persisted) := by
  constructor
  · exact stepItem_persisted
  · intro env ua file0 ex sum s h
    obtain ⟨history, hload, hrw, -, -, -, -, -, -⟩ :=
      main_finished_inv env ua file0 ex sum s h
    have hcur := load_cursor_eq file0 history hload
    have hmono := runWindow_persistedCursor_mono env ua (initialCursor history) _ 0 _ s hrw
      (by show persistedCursor file0 ≤ _; omega)
    exact hmono.1

/-- C1 witness: a concrete download-failure iteration, for which the
durable file is untouched. -/
theorem C1_witness :
    (stepItem envNoDl true (mkVideo "user" entryA) 0 true sInit = Except.ok sInitFailed) ∧
    (sInitFailed.persisted = sInit.persisted ∨
     ((∃ j, sInitFailed.persisted = FileState.parsed j ∧ j.current_index = some (0 + 1)) ∧
      ((mkVideo "user" entryA).id ∈ sInit.uploaded_ids ∨
        sInitFailed.uploaded_ids = sInit.uploaded_ids ++ [(mkVideo "user" entryA).id]))) :=
  ⟨rfl,
   C1_cursor_monotone_guarded.1 envNoDl true (mkVideo "user" entryA) 0 true
     sInit sInitFailed rfl⟩

/-! ### Claim C2 (amended) -/

/-- C2 amended: a save failure in the skip branch (line 234, outside any
`try`) aborts the pass with a propagated error; but a save failure in the
publish-success branch (line 258, inside the `try` of lines 246-274) is
caught by the per-item handler, counted as one more failed upload, and the
loop continues — with the id already appended to the in-memory list and
the durable file left unchanged. -/
theorem C2_save_failure_behaviour :
    (∀ (env : Env) (ua : Bool) (v : Video) (ai : Nat) (last : Bool) (s : LoopState),
        v.id ∈ s.uploaded_ids →
        env.saveOk (skipRecord s ai) = false →
        stepItem env ua v ai last s = Except.error PassError.saveError) ∧
    (∀ (env : Env) (ua : Bool) (v : Video) (ai : Nat) (last : Bool) (s : LoopState)
        (f : String),
        v.id ∉ s.uploaded_ids →
        env.download v = some f →
        ((uploadAttempt env f v).2).isSome = true →
        env.saveOk (successRecord s v ai) = false →
        stepItem env ua v ai last s = Except.ok
          { s with
            uploaded_ids := s.uploaded_ids ++ [v.id]
            history := successRecord s v ai
            failed_uploads := s.failed_uploads + 1
            events := s.events ++ [Event.download v,
              Event.publish v f (uploadAttempt env f v).1] }) := by
  constructor
  · intro env ua v ai last s hmem hsv
    unfold stepItem
    rw [if_pos hmem, hsv, if_neg (by simp)]
  · intro env ua v ai last s f hmem hdl hpub hsv
    obtain ⟨y, hy⟩ := Option.isSome_iff_exists.mp hpub
    unfold stepItem
    rw [if_neg hmem, hdl]
    simp only [hy, hsv, Bool.false_eq_true, if_false]

/-- C2 witness: with a failing disk, the save in the skip branch aborts the
pass with the propagated error. -/
theorem C2_witness :
    ((mkVideo "user" entryA).id ∈ sHasA.uploaded_ids) ∧
    envC2.saveOk (skipRecord sHasA 0) = false ∧
    stepItem envC2 false (mkVideo "user" entryA) 0 true sHasA =
      Except.error PassError.saveError :=
  ⟨by decide, rfl,
   C2_save_failure_behaviour.1 envC2 false (mkVideo "user" entryA) 0 true sHasA
     (by decide) rfl⟩

/-! ### Claim C4 -/

/-- C4: when an item's publish attempt fails, the iteration leaves the
in-memory record, the id list and the durable file exactly as they were —
only the failure counter and the call trace grow — and the loop moves on to
the next item of the window instead of aborting the pass. -/
theorem C4_publish_failure :
    ∀ (env : Env) (ua : Bool) (v : Video) (rest : List Video) (ci0 idx : Nat)
      (s : LoopState) (f : String),
      v.id ∉ s.uploaded_ids →
      env.download v = some f →
      (uploadAttempt env f v).2 = none →
      (stepItem env ua v (ci0 + idx) rest.isEmpty s = Except.ok
          { s with failed_uploads := s.failed_uploads + 1
                   events := s.events ++ [Event.download v,
                     Event.publish v f (uploadAttempt env f v).1] }) ∧
      runWindow env ua ci0 (v :: rest) idx s =
        runWindow env ua ci0 rest (idx + 1)
          { s with failed_uploads := s.failed_uploads + 1
                   events := s.events ++ [Event.download v,
                     Event.publish v f (uploadAttempt env f v).1] } := by
  intro env ua v rest ci0 idx s f hmem hdl hpub
  have hstep : stepItem env ua v (ci0 + idx) rest.isEmpty s = Except.ok
      { s with failed_uploads := s.failed_uploads + 1
               events := s.events ++ [Event.download v,
                 Event.publish v f (uploadAttempt env f v).1] } := by
    unfold stepItem
    rw [if_neg hmem, hdl]
    simp only [hpub]
  refine ⟨hstep, ?_⟩
  simp only [runWindow, hstep]

/-- C4 witness: a concrete failed publish attempt leaves the fresh state
unchanged apart from the failure counter and the trace. -/
theorem C4_witness :
    ((mkVideo "user" entryA).id ∉ sInit.uploaded_ids) ∧
    envPubFail.download (mkVideo "user" entryA) = some "file_A" ∧
    (uploadAttempt envPubFail "file_A" (mkVideo "user" entryA)).2 = none ∧
    stepItem envPubFail false (mkVideo "user" entryA) (0 + 0)
      (List.isEmpty ([] : List Video)) sInit =
      Except.ok
        { sInit with failed_uploads := sInit.failed_uploads + 1
                     events := sInit.events ++ [Event.download (mkVideo "user" entryA),
                       Event.publish (mkVideo "user" entryA) "file_A"
                         (uploadAttempt envPubFail "file_A" (mkVideo "user" entryA)).1] } :=
  ⟨by decide, rfl, rfl,
   (C4_publish_failure envPubFail false (mkVideo "user" entryA) [] 0 0 sInit "file_A"
     (by decide) rfl rfl).1⟩

/-! ### Claim C5 -/

/-- C5: an item whose id is already in the uploaded list triggers no
download and no publish (the trace is unchanged), advances the in-memory
cursor to `index + 1` and persists the record; and over any non-aborting
window run, an id already in the uploaded list stays there and acquires no
further publish attempts — so once an id is recorded, `publish` is never
invoked for it again in this or any later pass. -/
theorem C5_skip_no_republish :
    (∀ (env : Env) (ua : Bool) (v : Video) (ai : Nat) (last : Bool) (s : LoopState),
        v.id ∈ s.uploaded_ids →
        env.saveOk (skipRecord s ai) = true →
        stepItem env ua v ai last s = Except.ok
          { s with history := skipRecord s ai
                   persisted := FileState.parsed (skipRecord s ai) }) ∧
    (∀ (env : Env) (ua : Bool) (ci0 : Nat) (vs : List Video) (idx : Nat)
        (s s' : LoopState) (theId : String),
        runWindow env ua ci0 vs idx s = Except.ok s' →
        theId ∈ s.uploaded_ids →
        theId ∈ s'.uploaded_ids ∧
        publishCount theId s'.events = publishCount theId s.events) := by
  constructor
  · intro env ua v ai last s hmem hsv
    unfold stepItem
    rw [if_pos hmem, hsv, if_pos rfl]
  · exact runWindow_no_republish

/-- C5 witness: a concrete one-item window whose item is already uploaded:
the state changes only in cursor and persisted record, and the id keeps a
publish count of zero. -/
theorem C5_witness :
    (stepItem envOk false (mkVideo "user" entryA) 0 true sHasA =
      Except.ok sHasASkipped) ∧
    ("A" ∈ sHasASkipped.uploaded_ids ∧
     publishCount "A" sHasASkipped.events = publishCount "A" sHasA.events) :=
  ⟨C5_skip_no_republish.1 envOk false (mkVideo "user" entryA) 0 true sHasA (by decide) rfl,
   C5_skip_no_republish.2 envOk false 0 [mkVideo "user" entryA] 0 sHasA
     sHasASkipped "A" (by rfl) (by decide)⟩

/-! ### Claim C6 (amended) -/

/-- C6 amended: the summary block is reached only when the enumeration is
nonempty and the loaded cursor is below the sequence length (otherwise the
pass returns early with a plain message and reports no counts); when it is
reached, it reports the successful and failed counters of the loop state,
the in-memory cursor over the total, and the remaining count
`total - cursor` only when items remain. No count of skipped-already-done
items is reported anywhere. -/
theorem C6_summary_conditions :
    (∀ (env : Env) (ua : Bool) (j : HistoryJson),
        main env ua (FileState.parsed j) ExtractResult.failure =
          Except.ok PassOutcome.noVideos) ∧
    (∀ (env : Env) (ua : Bool) (j : HistoryJson) (ex : ExtractResult),
        get_all_tiktok_videos env.username ex ≠ [] →
        (get_all_tiktok_videos env.username ex).length ≤ initialCursor j →
        main env ua (FileState.parsed j) ex =
          Except.ok (PassOutcome.allDone (get_all_tiktok_videos env.username ex).length)) ∧
    (∀ (env : Env) (ua : Bool) (file0 : FileState) (ex : ExtractResult)
        (sum : Summary) (s : LoopState),
        main env ua file0 ex = Except.ok (PassOutcome.finished sum s) →
        sum.successful = s.successful_uploads ∧
        sum.failed = s.failed_uploads ∧
        s.history.current_index = some sum.progressIndex ∧
        sum.total = (get_all_tiktok_videos env.username ex).length ∧
        sum.remaining = (if sum.total ≤ sum.progressIndex then none
                         else some (sum.total - sum.progressIndex))) := by
  refine ⟨fun env ua j => rfl, ?_, ?_⟩
  · intro env ua j ex hne hle
    simp only [main, load_uploaded_history]
    rw [if_neg (by simp [List.isEmpty_iff, hne]), if_pos hle]
  · intro env ua file0 ex sum s h
    obtain ⟨history, -, -, hpi, hsucc, hfail, htot, hrem, -⟩ :=
      main_finished_inv env ua file0 ex sum s h
    exact ⟨hsucc, hfail, hpi, htot, hrem⟩

/-- C6 witness: a concrete pass ending at the summary block, whose failed
figure is the loop's failure counter; and a concrete pass ending at the
all-done early exit without a summary. -/
theorem C6_witness :
    ((main envNoDl false fileZero extractAB = Except.ok (PassOutcome.finished sumC7 sC7)) ∧
      sumC7.failed = sC7.failed_uploads) ∧
    main envOk false (FileState.parsed { uploaded_ids := some [], current_index := some 5 })
      extractAB = Except.ok (PassOutcome.allDone 2) :=
  ⟨⟨rfl,
    (C6_summary_conditions.2.2 envNoDl false fileZero extractAB sumC7 sC7 rfl).2.1⟩,
   C6_summary_conditions.2.1 envOk false
     { uploaded_ids := some [], current_index := some 5 } extractAB
     (by decide) (by decide)⟩

/-! ### Claim C7 -/

/-- The final state of a bulk pass over `[A, B]` from `fileZero` with
all-succeeding oracles. -/
def sBulk : LoopState :=
  { uploaded_ids := ["A", "B"]
    history := { uploaded_ids := some ["A", "B"], current_index := some 2 }
    persisted := FileState.parsed { uploaded_ids := some ["A", "B"], current_index := some 2 }
    successful_uploads := 2
    failed_uploads := 0
    events := [Event.download (mkVideo "user" entryA),
      Event.publish (mkVideo "user" entryA) "file_A"
        (uploadAttempt envOk "file_A" (mkVideo "user" entryA)).1,
      Event.download (mkVideo "user" entryB),
      Event.publish (mkVideo "user" entryB) "file_B"
        (uploadAttempt envOk "file_B" (mkVideo "user" entryB)).1] }

/-- The summary of that bulk pass. -/
def sumBulk : Summary :=
  { successful := 2, failed := 0, progressIndex := 2, total := 2, remaining := none }

/-- C7: when the pass reaches the loop, single mode works on exactly the
one item at index `cursor` — every collaborator call of the pass concerns
that item, and both the in-memory and the persisted cursor advance by at
most 1 — while bulk mode takes the whole remaining slice and, when every
download, publish and save succeeds, finishes with the cursor at the
sequence length. -/
theorem C7_window_modes :
    (∀ (env : Env) (file0 : FileState) (ex : ExtractResult)
        (sum : Summary) (s : LoopState),
        main env false file0 ex = Except.ok (PassOutcome.finished sum s) →
        sum.progressIndex ≤ persistedCursor file0 + 1 ∧
        persistedCursor s.persisted ≤ persistedCursor file0 + 1 ∧
        ∀ e ∈ s.events,
          (get_all_tiktok_videos env.username ex)[persistedCursor file0]? =
            some (Event.video e)) ∧
    (∀ (env : Env) (file0 : FileState) (ex : ExtractResult)
        (sum : Summary) (s : LoopState),
        (∀ v, (env.download v).isSome) →
        (∀ f b, (env.api f b).isSome) →
        (∀ j, env.saveOk j = true) →
        main env true file0 ex = Except.ok (PassOutcome.finished sum s) →
        sum.progressIndex = (get_all_tiktok_videos env.username ex).length) := by
  constructor
  · intro env file0 ex sum s h
    obtain ⟨history, hload, hrw, hpi, -, -, -, -, hlt⟩ :=
      main_finished_inv env false file0 ex sum s h
    have hcur := load_cursor_eq file0 history hload
    rw [if_neg (by decide)] at hrw
    have hdrop := List.drop_eq_getElem_cons hlt
    rw [hdrop] at hrw
    simp only [List.take_succ_cons, List.take_zero] at hrw
    simp only [runWindow] at hrw
    split at hrw
    · exact absurd hrw (by simp)
    · rename_i s1 hstep
      simp only [runWindow, Except.ok.injEq] at hrw
      subst hrw
      rcases stepItem_cases _ _ _ _ _ _ _ hstep with
        ⟨hmem, hsv, hs1⟩ | ⟨hmem, hids, hhist, new, hev, hall⟩
      · subst hs1
        refine ⟨?_, ?_, ?_⟩
        · have : some (initialCursor history + 0 + 1) = some sum.progressIndex := hpi
          have := Option.some.inj this
          omega
        · show initialCursor history + 0 + 1 ≤ persistedCursor file0 + 1
          omega
        · intro e he
          exact absurd he (by simp)
      · refine ⟨?_, ?_, ?_⟩
        · rcases hhist with hh | hh
          · rw [hh] at hpi
            have h1 : history.current_index = some sum.progressIndex := hpi
            have h2 : initialCursor history = sum.progressIndex := by
              simp only [initialCursor, h1, Option.getD_some]
            omega
          · rw [hh] at hpi
            have := Option.some.inj hpi
            omega
        · rcases stepItem_persisted _ _ _ _ _ _ _ hstep with hp | ⟨⟨j, hj, hjc⟩, -⟩
          · rw [hp]
            show persistedCursor file0 ≤ _
            omega
          · rw [hj]
            show initialCursor j ≤ persistedCursor file0 + 1
            have h2 : initialCursor j = initialCursor history + 0 + 1 := by
              simp only [initialCursor, hjc, Option.getD_some]
            omega
        · intro e he
          rw [hev] at he
          simp only [List.nil_append] at he
          rw [hall e he, ← hcur]
          exact List.getElem?_eq_getElem hlt
  · intro env file0 ex sum s hdl hapi hsave h
    obtain ⟨history, hload, hrw, hpi, -, -, -, -, hlt⟩ :=
      main_finished_inv env true file0 ex sum s h
    rw [if_pos rfl] at hrw
    have hne : (get_all_tiktok_videos env.username ex).drop (initialCursor history) ≠ [] := by
      rw [Ne, List.drop_eq_nil_iff]
      omega
    obtain ⟨s2, hs2, hcur2⟩ := runWindow_all_success env true (initialCursor history)
      hdl hapi hsave _ 0 _ hne
    rw [hrw] at hs2
    cases hs2
    rw [hpi, List.length_drop] at hcur2
    have := Option.some.inj hcur2
    omega

/-- C7 witness: a concrete single-mode pass advances the cursor by at most
one, and a concrete all-successful bulk pass over two items finishes with
the cursor at the sequence length. -/
theorem C7_witness :
    ((main envNoDl false fileZero extractAB = Except.ok (PassOutcome.finished sumC7 sC7)) ∧
      sumC7.progressIndex ≤ persistedCursor fileZero + 1) ∧
    ((main envOk true fileZero extractAB = Except.ok (PassOutcome.finished sumBulk sBulk)) ∧
      sumBulk.progressIndex = (get_all_tiktok_videos envOk.username extractAB).length) :=
  ⟨⟨rfl, (C7_window_modes.1 envNoDl fileZero extractAB sumC7 sC7 rfl).1⟩,
   ⟨rfl, C7_window_modes.2 envOk fileZero extractAB sumBulk sBulk
     (fun _ => rfl) (fun _ _ => rfl) (fun _ => rfl) rfl⟩⟩

end TiktokUploader
